import Mathlib

/-!
Verification of the bounded-concurrency inference server
(`src/server.py` and `src/test_concurrent.py`).

The functional layer shallowly embeds the request handlers: the two
Hugging Face pipelines are parameters (opaque backend functions of their
call arguments, returning `Except` since a backend call may raise), and
each endpoint is a pure function from a parsed JSON body to the number of
backend invocations performed together with the HTTP response.

The concurrency layer embeds the serving pipeline as a labelled transition
system: `ThreadPoolExecutor(max_workers=4)` is a FIFO work queue drained by
at most four concurrently running workers, and each request moves through
the phases queued → running → done.
-/

namespace LocalInference

/-- JSON values, the payload format of the HTTP surface. -/
inductive Json where
  | str : String → Json
  | num : Int → Json
  | bool : Bool → Json
  | null : Json
  | arr : List Json → Json
  | obj : List (String × Json) → Json
deriving Repr

/-- An HTTP response: a status code and a JSON body. -/
structure Response where
  status : Nat
  body : Json
deriving Repr

/-- A backend pipeline call that raises is modelled as this error value;
the spec calls the error kind `InferenceFailure`. -/
inductive BackendError where
  | inferenceFailure : String → BackendError
deriving Repr, DecidableEq

/-- One element of the list returned by the text-generation pipeline:
`out[0]["generated_text"]` in `run_chat` (src/server.py line 85). -/
structure GenOutput where
  generated_text : String
deriving Repr

/-- One element of the list returned by the summarization pipeline:
`out[0]["summary_text"]` in `run_summarize` (src/server.py line 89). -/
structure SumOutput where
  summary_text : String
deriving Repr

/-- The text-generation pipeline `chat_pipe` (src/server.py line 10), an
opaque backend function of its call arguments in order: the input text,
`max_new_tokens`, and `return_full_text`.  A call may raise. -/
def ChatPipe : Type :=
  String → Nat → Bool → Except BackendError (List GenOutput)

/-- The summarization pipeline `summary_pipe` (src/server.py line 11), an
opaque backend function of its call arguments in order: the input text,
`max_length`, `min_length`, and `do_sample`.  A call may raise. -/
def SummaryPipe : Type :=
  String → Nat → Nat → Bool → Except BackendError (List SumOutput)

/-- `run_chat` (src/server.py lines 83-85): calls
`chat_pipe(text, max_new_tokens=100, return_full_text=False)` and returns
`out[0]["generated_text"]`.  Indexing an empty list raises, which we fold
into the error case like any other backend exception. -/
def run_chat (chat_pipe : ChatPipe) (text : String) :
    Except BackendError String :=
  match chat_pipe text 100 false with
  | .error e => .error e
  | .ok [] => .error (.inferenceFailure "list index out of range")
  | .ok (o :: _) => .ok o.generated_text

/-- `run_summarize` (src/server.py lines 87-89): calls
`summary_pipe(text, max_length=130, min_length=30, do_sample=False)` and
returns `out[0]["summary_text"]`. -/
def run_summarize (summary_pipe : SummaryPipe) (text : String) :
    Except BackendError String :=
  match summary_pipe text 130 30 false with
  | .error e => .error e
  | .ok [] => .error (.inferenceFailure "list index out of range")
  | .ok (o :: _) => .ok o.summary_text

/-- The pydantic model `ChatRequest` (src/server.py lines 16-17): one
required field `text` of type `str`. -/
structure ChatRequest where
  text : String
deriving Repr, DecidableEq

/-- The pydantic model `SummaryRequest` (src/server.py lines 19-20): one
required field `text` of type `str`. -/
structure SummaryRequest where
  text : String
deriving Repr, DecidableEq

/-- Modelled from the spec: schema validation of a request body against
`\x7b "text": string \x7d` is performed by the framework (an external
collaborator, spec §1 and §6); a body conforms exactly when it is a JSON
object whose `text` member is a string. -/
def parseTextField : Json → Option String
  | .obj fields =>
    match fields.lookup "text" with
    | some (.str s) => some s
    | _ => none
  | _ => none

/-- Validation of a `/chat` body into a `ChatRequest`. -/
def ChatRequest.validate (body : Json) : Option ChatRequest :=
  (parseTextField body).map ChatRequest.mk

/-- Validation of a `/summarize` body into a `SummaryRequest`. -/
def SummaryRequest.validate (body : Json) : Option SummaryRequest :=
  (parseTextField body).map SummaryRequest.mk

/-- Modelled from the spec: the framework rejects a non-conforming body
with HTTP 422 before the handler runs (spec §6). -/
def unprocessableResponse : Response :=
  ⟨422, .obj [("detail", .str "validation error")]⟩

/-- Modelled from the spec: an unhandled exception escaping the handler is
mapped by the framework to HTTP 500 with an opaque error message that
never leaks backend internals (spec §4.2 and §7). -/
def opaqueErrorResponse : Response :=
  ⟨500, .obj [("detail", .str "Internal Server Error")]⟩

/-- The `/chat` endpoint `chat` (src/server.py lines 91-95) together with
the framework-side validation and error mapping.  The first component
counts how many times the backend pipeline was invoked while serving the
request. -/
def chat (chat_pipe : ChatPipe) (body : Json) : Nat × Response :=
  match ChatRequest.validate body with
  | none => (0, unprocessableResponse)
  | some req =>
    match run_chat chat_pipe req.text with
    | .ok r => (1, ⟨200, .obj [("response", .str r)]⟩)
    | .error _ => (1, opaqueErrorResponse)

/-- The `/summarize` endpoint `summarize` (src/server.py lines 97-101)
together with the framework-side validation and error mapping. -/
def summarize (summary_pipe : SummaryPipe) (body : Json) : Nat × Response :=
  match SummaryRequest.validate body with
  | none => (0, unprocessableResponse)
  | some req =>
    match run_summarize summary_pipe req.text with
    | .ok r => (1, ⟨200, .obj [("summary", .str r)]⟩)
    | .error _ => (1, opaqueErrorResponse)

/-- `executor = ThreadPoolExecutor(max_workers=4)` (src/server.py
line 14): the size of the single module-level worker pool. -/
def max_workers : Nat := 4

/-- `uvicorn.run(app, host="0.0.0.0", port=8000)` (src/server.py
line 104): default bind host. -/
def bind_host : String := "0.0.0.0"

/-- `uvicorn.run(app, host="0.0.0.0", port=8000)` (src/server.py
line 104): default bind port. -/
def bind_port : Nat := 8000

/-- The number 15 printed by `src/test_concurrent.py` line 112
("Semaphore limit: 15 concurrent GPU requests") — commentary in the load
test, not a value used by `src/server.py`. -/
def test_commentary_semaphore_limit : Nat := 15

/-- The task kind of a request: which endpoint, and hence which pipeline,
it targets. -/
inductive TaskKind where
  | generate
  | summarize
deriving Repr, DecidableEq

/-- Phase of a request in the serving pipeline.  After the handler calls
`loop.run_in_executor(executor, ...)` (src/server.py lines 94 and 100) the
work item waits in the executor's FIFO queue (`queued`), then a free
worker thread executes the backend call (`running`), and finally the
future resolves (`done`, recording whether the backend call raised).
While a request is `queued` or `running` its handler task is suspended
awaiting the future. -/
inductive Phase where
  | queued
  | running
  | done (failed : Bool)
deriving Repr, DecidableEq

/-- Whether a phase is `running`. -/
def Phase.isRunning : Phase → Bool
  | .running => true
  | _ => false

/-- State of the serving process: `reqs` lists every submitted request in
submission order (the request with id `i` is `reqs[i]`), `queue` is the
executor's FIFO work queue of request ids, and `permitsHeld` counts
admission permits currently held.  No statement in `src/server.py`
acquires or releases an admission permit (there is no semaphore in the
serving code), so no transition below touches `permitsHeld`. -/
structure ServerState where
  reqs : List (TaskKind × Phase)
  queue : List Nat
  permitsHeld : Nat
deriving Repr, DecidableEq

/-- The state at process start: no requests, empty queue, no permits. -/
def initState : ServerState := ⟨[], [], 0⟩

/-- Number of requests whose backend call is executing right now. -/
def countRunning : List (TaskKind × Phase) → Nat
  | [] => 0
  | r :: t => (if r.2.isRunning then 1 else 0) + countRunning t

/-- Number of requests of a given kind executing right now. -/
def countRunningOfKind (k : TaskKind) : List (TaskKind × Phase) → Nat
  | [] => 0
  | r :: t =>
    (if r.1 = k ∧ r.2.isRunning = true then 1 else 0) + countRunningOfKind k t

/-- `countRunning` of the state's request list. -/
def runningCount (s : ServerState) : Nat := countRunning s.reqs

/-- Observable events of the serving pipeline. -/
inductive Event where
  | submit (k : TaskKind)
  | start (i : Nat)
  | finish (i : Nat) (failed : Bool)
deriving Repr, DecidableEq

/-- Labelled transitions of the serving pipeline, embedding the code's use
of one module-level `ThreadPoolExecutor(max_workers=4)` shared by both
endpoints (src/server.py lines 14, 94, 100):

* `submit`: a handler (of either endpoint) hands its work item to the
  executor; acceptance is unconditional (the executor queue is unbounded)
  and the item is appended to the single FIFO queue, with ids assigned in
  submission order.
* `start`: a worker thread picks up the item at the head of the FIFO
  queue; this is only possible while fewer than `max_workers` items are
  executing, since the pool has exactly `max_workers` worker threads.
* `finish`: the backend call on a worker returns or raises; either way the
  worker is freed and the request's future resolves. -/
inductive Step : ServerState → Event → ServerState → Prop where
  | submit (s : ServerState) (k : TaskKind) :
      Step s (.submit k)
        { s with
          reqs := s.reqs ++ [(k, .queued)],
          queue := s.queue ++ [s.reqs.length] }
  | start (s : ServerState) (i : Nat) (k : TaskKind) (rest : List Nat)
      (hq : s.queue = i :: rest)
      (hp : s.reqs[i]? = some (k, .queued))
      (hcap : runningCount s < max_workers) :
      Step s (.start i)
        { s with queue := rest, reqs := s.reqs.set i (k, .running) }
  | finish (s : ServerState) (i : Nat) (k : TaskKind) (failed : Bool)
      (hp : s.reqs[i]? = some (k, .running)) :
      Step s (.finish i failed)
        { s with reqs := s.reqs.set i (k, .done failed) }

/-- States reachable from process start under any schedule. -/
inductive Reachable : ServerState → Prop where
  | init : Reachable initState
  | step {s s2 : ServerState} {e : Event} :
      Reachable s → Step s e s2 → Reachable s2

/-- Counting running requests distributes over list append. -/
theorem countRunning_append (l1 l2 : List (TaskKind × Phase)) :
    countRunning (l1 ++ l2) = countRunning l1 + countRunning l2 := by
  induction l1 with
  | nil => simp [countRunning]
  | cons a t ih => simp [countRunning, ih]; omega

/-- Moving a queued request to `running` raises the running count by one. -/
theorem countRunning_set_start (l : List (TaskKind × Phase)) (i : Nat)
    (k k2 : TaskKind) (h : l[i]? = some (k, .queued)) :
    countRunning (l.set i (k2, .running)) = countRunning l + 1 := by
  induction l generalizing i with
  | nil => simp at h
  | cons a t ih =>
    cases i with
    | zero =>
      simp at h
      subst h
      simp [countRunning, Phase.isRunning]
      omega
    | succ n =>
      simp at h
      simp [countRunning, ih n h]
      omega

/-- Moving a running request to `done` lowers the running count by one. -/
theorem countRunning_set_finish (l : List (TaskKind × Phase)) (i : Nat)
    (k k2 : TaskKind) (b : Bool) (h : l[i]? = some (k, .running)) :
    countRunning (l.set i (k2, .done b)) + 1 = countRunning l := by
  induction l generalizing i with
  | nil => simp at h
  | cons a t ih =>
    cases i with
    | zero =>
      simp at h
      subst h
      simp [countRunning, Phase.isRunning]
      omega
    | succ n =>
      simp at h
      have h2 := ih n h
      simp [countRunning]
      omega

/-- Every running request is of exactly one of the two task kinds. -/
theorem countRunning_partition (l : List (TaskKind × Phase)) :
    countRunningOfKind .generate l + countRunningOfKind .summarize l
      = countRunning l := by
  induction l with
  | nil => simp [countRunning, countRunningOfKind]
  | cons a t ih =>
    rcases a with ⟨k, p⟩
    cases k <;>
      simp [countRunning, countRunningOfKind, ih] <;> omega

/-- Pool-bound invariant: a reachable state never executes more than
`max_workers` backend calls at once, because `start` requires a free
worker thread. -/
theorem runningCount_le_max_workers (s : ServerState) (h : Reachable s) :
    runningCount s ≤ max_workers := by
  induction h with
  | init => simp [runningCount, initState, countRunning]
  | @step s s2 e hR hstep ih =>
    cases hstep with
    | submit k =>
      simpa [runningCount, countRunning_append, countRunning] using ih
    | start i k rest hq hp hcap =>
      have h2 := countRunning_set_start s.reqs i k k hp
      simp [runningCount] at hcap ⊢
      omega
    | finish i k failed hp =>
      have h2 := countRunning_set_finish s.reqs i k k failed hp
      simp [runningCount] at ih ⊢
      omega

/-- Queue invariant: in every reachable state the executor's FIFO queue
holds request ids in strictly increasing submission order, each id naming
a submitted request. -/
theorem queue_sorted (s : ServerState) (h : Reachable s) :
    s.queue.Pairwise (· < ·) ∧ ∀ i ∈ s.queue, i < s.reqs.length := by
  induction h with
  | init => simp [initState]
  | @step s s2 e hR hstep ih =>
    obtain ⟨hpw, hbd⟩ := ih
    cases hstep with
    | submit k =>
      constructor
      · rw [List.pairwise_append]
        refine ⟨hpw, by simp, ?_⟩
        intro a ha b hb
        simp at hb
        subst hb
        exact hbd a ha
      · intro i hi
        simp [List.length_append]
        rcases List.mem_append.mp hi with hi | hi
        · have := hbd i hi
          omega
        · simp at hi
          omega
    | start i k rest hq hp hcap =>
      rw [hq] at hpw hbd
      constructor
      · exact hpw.of_cons
      · intro j hj
        have := hbd j (List.mem_cons_of_mem _ hj)
        simpa [List.length_set] using this
    | finish i k failed hp =>
      refine ⟨hpw, fun j hj => ?_⟩
      simpa [List.length_set] using hbd j hj

/-- Permit invariant: no transition of the serving code touches admission
permits, so a reachable state holds none. -/
theorem permitsHeld_eq_zero (s : ServerState) (h : Reachable s) :
    s.permitsHeld = 0 := by
  induction h with
  | init => rfl
  | step hR hstep ih => cases hstep <;> exact ih

/-- A concrete reachable state with one backend call executing: submit one
generate request, then a worker picks it up. -/
theorem reachable_one_running :
    Reachable ⟨[(.generate, .running)], [], 0⟩ :=
  Reachable.step
    (Reachable.step Reachable.init (Step.submit initState .generate))
    (Step.start ⟨[(.generate, .queued)], [0], 0⟩ 0 .generate [] rfl rfl
      (by decide))

/-- A concrete reachable state with two queued requests (ids 0 and 1 in
submission order). -/
theorem reachable_two_queued :
    Reachable ⟨[(.generate, .queued), (.summarize, .queued)], [0, 1], 0⟩ :=
  Reachable.step
    (Reachable.step Reachable.init (Step.submit initState .generate))
    (Step.submit ⟨[(.generate, .queued)], [0], 0⟩ .summarize)

/-- A concrete reachable state with one generate and one summarize request
executing simultaneously on the shared pool. -/
theorem reachable_mixed_running :
    Reachable ⟨[(.generate, .running), (.summarize, .running)], [], 0⟩ :=
  Reachable.step
    (Reachable.step reachable_two_queued
      (Step.start ⟨[(.generate, .queued), (.summarize, .queued)], [0, 1], 0⟩
        0 .generate [1] rfl rfl (by decide)))
    (Step.start ⟨[(.generate, .running), (.summarize, .queued)], [1], 0⟩
      1 .summarize [] rfl rfl (by decide))

/-- A concrete reachable state in which request 1 was submitted, executed
and resolved entirely while request 0's handler stayed suspended awaiting
its own future (request 0 is still `running`). -/
theorem reachable_overtaken :
    Reachable ⟨[(.generate, .running), (.generate, .done false)], [], 0⟩ :=
  Reachable.step
    (Reachable.step
      (Reachable.step reachable_one_running
        (Step.submit ⟨[(.generate, .running)], [], 0⟩ .generate))
      (Step.start ⟨[(.generate, .running), (.generate, .queued)], [1], 0⟩
        1 .generate [] rfl rfl (by decide)))
    (Step.finish ⟨[(.generate, .running), (.generate, .running)], [], 0⟩
      1 .generate false rfl)

/-- C2: a valid `POST /chat` body `\x7b "text": s \x7d` whose backend call
succeeds yields HTTP 200 with body `\x7b "response": r \x7d`, where `r` is
exactly the head `generated_text` the pipeline returns for input `s`
called with `max_new_tokens = 100` and `return_full_text = false` (so the
prompt is not echoed), and the backend is invoked exactly once. -/
theorem chat_success_response (chat_pipe : ChatPipe) (t r : String)
    (outs : List GenOutput)
    (h : chat_pipe t 100 false = .ok (⟨r⟩ :: outs)) :
    chat chat_pipe (.obj [("text", .str t)])
      = (1, ⟨200, .obj [("response", .str r)]⟩) := by
  simp [chat, ChatRequest.validate, parseTextField, List.lookup, run_chat, h]

/-- Witness for C2 at a concrete pipeline and input. -/
theorem chat_success_response_witness :
    chat (fun _ _ _ => .ok [⟨"a fun fact"⟩]) (.obj [("text", .str "hi")])
      = (1, ⟨200, .obj [("response", .str "a fun fact")]⟩) :=
  chat_success_response (fun _ _ _ => .ok [⟨"a fun fact"⟩])
    "hi" "a fun fact" [] rfl

/-- C3: a valid `POST /summarize` body `\x7b "text": s \x7d` whose backend
call succeeds yields HTTP 200 with body `\x7b "summary": r \x7d`, where
`r` is exactly the head `summary_text` the pipeline returns for input `s`
called with `max_length = 130` and `min_length = 30`, and the backend is
invoked exactly once. -/
theorem summarize_success_response (summary_pipe : SummaryPipe)
    (t r : String) (outs : List SumOutput)
    (h : summary_pipe t 130 30 false = .ok (⟨r⟩ :: outs)) :
    summarize summary_pipe (.obj [("text", .str t)])
      = (1, ⟨200, .obj [("summary", .str r)]⟩) := by
  simp [summarize, SummaryRequest.validate, parseTextField, List.lookup,
    run_summarize, h]

/-- Witness for C3 at a concrete pipeline and input. -/
theorem summarize_success_response_witness :
    summarize (fun _ _ _ _ => .ok [⟨"short"⟩]) (.obj [("text", .str "long")])
      = (1, ⟨200, .obj [("summary", .str "short")]⟩) :=
  summarize_success_response (fun _ _ _ _ => .ok [⟨"short"⟩])
    "long" "short" [] rfl

/-- C4: when the backend call raises, either endpoint returns HTTP 500
with the fixed opaque body (independent of the error, so backend internals
never leak) after exactly one backend invocation (no retry); and a
`finish` transition — failed or not — frees the worker (running count
drops by one) and leaves the queued work intact, so the pool keeps serving
subsequent requests. -/
theorem backend_failure_handling :
    (∀ (chat_pipe : ChatPipe) (t : String) (e : BackendError),
        run_chat chat_pipe t = .error e →
        chat chat_pipe (.obj [("text", .str t)]) = (1, opaqueErrorResponse)) ∧
    (∀ (summary_pipe : SummaryPipe) (t : String) (e : BackendError),
        run_summarize summary_pipe t = .error e →
        summarize summary_pipe (.obj [("text", .str t)])
          = (1, opaqueErrorResponse)) ∧
    opaqueErrorResponse.status = 500 ∧
    (∀ (s s2 : ServerState) (i : Nat) (failed : Bool),
        Step s (.finish i failed) s2 →
        runningCount s2 + 1 = runningCount s ∧ s2.queue = s.queue) := by
  refine ⟨?_, ?_, rfl, ?_⟩
  · intro chat_pipe t e h
    simp [chat, ChatRequest.validate, parseTextField, List.lookup, h]
  · intro summary_pipe t e h
    simp [summarize, SummaryRequest.validate, parseTextField, List.lookup, h]
  · intro s s2 i failed hstep
    cases hstep
    rename_i k hp
    refine ⟨?_, rfl⟩
    simpa [runningCount] using countRunning_set_finish s.reqs i k k failed hp

/-- Witness for C4: a failing backend maps to the opaque 500 on both
endpoints, and a failed finish frees the worker in a concrete state. -/
theorem backend_failure_handling_witness :
    chat (fun _ _ _ => .error (.inferenceFailure "cuda"))
        (.obj [("text", .str "hi")]) = (1, opaqueErrorResponse) ∧
    summarize (fun _ _ _ _ => .error (.inferenceFailure "cuda"))
        (.obj [("text", .str "hi")]) = (1, opaqueErrorResponse) ∧
    runningCount ⟨[(.generate, .done true)], [], 0⟩ + 1
      = runningCount ⟨[(.generate, .running)], [], 0⟩ :=
  ⟨backend_failure_handling.1 (fun _ _ _ => .error (.inferenceFailure "cuda"))
      "hi" (.inferenceFailure "cuda") rfl,
   backend_failure_handling.2.1
      (fun _ _ _ _ => .error (.inferenceFailure "cuda"))
      "hi" (.inferenceFailure "cuda") rfl,
   (backend_failure_handling.2.2.2 ⟨[(.generate, .running)], [], 0⟩
      ⟨[(.generate, .done true)], [], 0⟩ 0 true
      (Step.finish ⟨[(.generate, .running)], [], 0⟩ 0 .generate true rfl)).1⟩

/-- C5: a body not conforming to the `\x7b "text": string \x7d` schema is
answered with HTTP 422 and the backend is invoked zero times, on both
endpoints; the response is a constant, so it cannot depend on the backend. -/
theorem malformed_body_rejected :
    (∀ (chat_pipe : ChatPipe) (body : Json), parseTextField body = none →
        chat chat_pipe body = (0, unprocessableResponse)) ∧
    (∀ (summary_pipe : SummaryPipe) (body : Json), parseTextField body = none →
        summarize summary_pipe body = (0, unprocessableResponse)) ∧
    unprocessableResponse.status = 422 := by
  refine ⟨?_, ?_, rfl⟩
  · intro chat_pipe body h
    simp [chat, ChatRequest.validate, h]
  · intro summary_pipe body h
    simp [summarize, SummaryRequest.validate, h]

/-- Witness for C5: a body whose `text` member is a number is rejected by
both endpoints with zero backend calls. -/
theorem malformed_body_rejected_witness :
    chat (fun _ _ _ => .ok [⟨"out"⟩]) (.obj [("text", .num 3)])
      = (0, unprocessableResponse) ∧
    summarize (fun _ _ _ _ => .ok [⟨"out"⟩]) (.obj [("text", .num 3)])
      = (0, unprocessableResponse) :=
  ⟨malformed_body_rejected.1 (fun _ _ _ => .ok [⟨"out"⟩])
      (.obj [("text", .num 3)]) rfl,
   malformed_body_rejected.2.1 (fun _ _ _ _ => .ok [⟨"out"⟩])
      (.obj [("text", .num 3)]) rfl⟩

/-- C10: `/summarize` is deterministic given the backend as a function of
its arguments: two valid bodies carrying the same `text` produce the same
response for any pipeline, because `run_summarize` always passes the fixed
arguments `max_length = 130`, `min_length = 30`, `do_sample = false`
(exhibited by a pipeline that reports the arguments it was called with). -/
theorem summarize_deterministic :
    (∀ (summary_pipe : SummaryPipe) (b1 b2 : Json) (req : SummaryRequest),
        SummaryRequest.validate b1 = some req →
        SummaryRequest.validate b2 = some req →
        summarize summary_pipe b1 = summarize summary_pipe b2) ∧
    (∀ t : String,
        run_summarize
          (fun _ maxL minL ds =>
            .ok [⟨toString maxL ++ "," ++ toString minL ++ "," ++ toString ds⟩])
          t = .ok "130,30,false") := by
  refine ⟨?_, fun t => rfl⟩
  intro summary_pipe b1 b2 req h1 h2
  simp [summarize, h1, h2]

/-- Witness for C10: the same text inside two different bodies gives the
same response. -/
theorem summarize_deterministic_witness :
    summarize (fun _ _ _ _ => .ok [⟨"s"⟩])
        (.obj [("text", .str "a"), ("extra", .num 1)])
      = summarize (fun _ _ _ _ => .ok [⟨"s"⟩]) (.obj [("text", .str "a")]) :=
  summarize_deterministic.1 (fun _ _ _ _ => .ok [⟨"s"⟩])
    (.obj [("text", .str "a"), ("extra", .num 1)])
    (.obj [("text", .str "a")]) ⟨"a"⟩ rfl rfl

/-- C1 counterexample: the claim as stated is false on the code.  The
only admission-permit count in the repository is the 15 of the load
test's commentary, and no permit is ever acquired: in the reachable state
with one backend call executing, the running count (1) exceeds the
permits held (0), so a backend call runs without holding an
AdmissionPermit. -/
theorem running_without_permit :
    ¬ (∀ s : ServerState, Reachable s →
        runningCount s ≤ min max_workers test_commentary_semaphore_limit ∧
        runningCount s ≤ s.permitsHeld) := by
  intro h
  have h2 := (h ⟨[(.generate, .running)], [], 0⟩ reachable_one_running).2
  exact absurd h2 (by decide)

/-- C1 amended: in every reachable state the number of backend calls
executing is at most `max_workers = 4` — which equals
`min(max_workers, 15)` for the only permit count the repository mentions —
and no admission permit is held: the request path acquires worker slots
only, never permits. -/
theorem executor_bound_and_no_permits (s : ServerState) (h : Reachable s) :
    runningCount s ≤ min max_workers test_commentary_semaphore_limit ∧
    s.permitsHeld = 0 := by
  refine ⟨?_, permitsHeld_eq_zero s h⟩
  have h4 := runningCount_le_max_workers s h
  simp [max_workers, test_commentary_semaphore_limit] at h4 ⊢
  omega

/-- Witness for the amended C1 at a concrete reachable state. -/
theorem executor_bound_and_no_permits_witness :
    runningCount ⟨[(.generate, .running)], [], 0⟩
        ≤ min max_workers test_commentary_semaphore_limit ∧
    ServerState.permitsHeld ⟨[(.generate, .running)], [], 0⟩ = 0 :=
  executor_bound_and_no_permits ⟨[(.generate, .running)], [], 0⟩
    reachable_one_running

/-- C6: the recognized configuration of the source — worker-pool size 4
(src/server.py line 14), bind address `0.0.0.0:8000` (src/server.py
line 104), the 15 only in the load test's commentary
(src/test_concurrent.py line 112), and no admission permit ever held on
the request path. -/
theorem recognized_configuration :
    max_workers = 4 ∧ bind_host = "0.0.0.0" ∧ bind_port = 8000 ∧
    test_commentary_semaphore_limit = 15 ∧
    (∀ s : ServerState, Reachable s → s.permitsHeld = 0) :=
  ⟨rfl, rfl, rfl, rfl, fun s h => permitsHeld_eq_zero s h⟩

/-- Witness for C6 at a concrete reachable state. -/
theorem recognized_configuration_witness :
    max_workers = 4 ∧
    ServerState.permitsHeld ⟨[(.generate, .running)], [], 0⟩ = 0 :=
  ⟨recognized_configuration.1,
   recognized_configuration.2.2.2.2 ⟨[(.generate, .running)], [], 0⟩
     reachable_one_running⟩

/-- C7: handing work to the executor never blocks — the `submit`
transition is enabled in every state whatsoever (a handler awaiting its
future cannot prevent the front door from accepting another request) —
and a concrete schedule reaches the state in which request 1 was
submitted, executed and resolved entirely while request 0's handler
stayed suspended awaiting its own future. -/
theorem submit_never_blocks :
    (∀ (s : ServerState) (k : TaskKind), ∃ s2, Step s (.submit k) s2) ∧
    Reachable ⟨[(.generate, .running), (.generate, .done false)], [], 0⟩ :=
  ⟨fun s k => ⟨_, Step.submit s k⟩, reachable_overtaken⟩

/-- C8: FIFO fairness at the queueing stage — a worker can only pick up
the request that has been queued longest: whenever `start j` fires, every
id still in the queue is `j` itself or was submitted strictly later
(ids are assigned in submission order), so a first-queued request
acquires a freed worker strictly before any later one. -/
theorem fifo_first_queued_first_served (s s2 : ServerState) (j : Nat)
    (hR : Reachable s) (hstep : Step s (.start j) s2) :
    ∀ i ∈ s.queue, i = j ∨ j < i := by
  obtain ⟨hpw, hbd⟩ := queue_sorted s hR
  cases hstep
  rename_i k rest hcap hq hp
  rw [hq] at hpw ⊢
  intro i hi
  rcases List.mem_cons.mp hi with hi | hi
  · exact Or.inl hi
  · exact Or.inr ((List.pairwise_cons.mp hpw).1 i hi)

/-- Witness for C8: with requests 0 and 1 queued in that order, the
`start 0` transition fires and request 1, still queued, is served strictly
later. -/
theorem fifo_first_queued_first_served_witness : (1 : Nat) = 0 ∨ 0 < 1 :=
  fifo_first_queued_first_served
    ⟨[(.generate, .queued), (.summarize, .queued)], [0, 1], 0⟩
    ⟨[(.generate, .running), (.summarize, .queued)], [1], 0⟩
    0 reachable_two_queued
    (Step.start ⟨[(.generate, .queued), (.summarize, .queued)], [0, 1], 0⟩
      0 .generate [1] rfl rfl (by decide))
    1 (by decide)

/-- C9: both endpoints dispatch into the one shared module-level pool:
the combined number of concurrently executing generate and summarize
calls never exceeds `max_workers = 4` in any reachable state, and a
submission of either kind appends to the same single FIFO queue (there is
no per-endpoint pool and no separate admission gate). -/
theorem shared_executor_combined_bound (s : ServerState) (h : Reachable s) :
    countRunningOfKind .generate s.reqs
        + countRunningOfKind .summarize s.reqs ≤ max_workers ∧
    (∀ k : TaskKind,
        Step s (.submit k)
          { s with
            reqs := s.reqs ++ [(k, .queued)],
            queue := s.queue ++ [s.reqs.length] }) := by
  refine ⟨?_, fun k => Step.submit s k⟩
  have h1 := countRunning_partition s.reqs
  have h2 := runningCount_le_max_workers s h
  simp [runningCount] at h2
  omega

/-- Witness for C9 at a concrete reachable state with one request of each
kind executing. -/
theorem shared_executor_combined_bound_witness :
    countRunningOfKind .generate
        [(.generate, .running), (.summarize, .running)]
      + countRunningOfKind .summarize
        [(.generate, .running), (.summarize, .running)] ≤ max_workers :=
  (shared_executor_combined_bound
    ⟨[(.generate, .running), (.summarize, .running)], [], 0⟩
    reachable_mixed_running).1

end LocalInference
